import Mathlib

/-!
Verification development for the `ai-engine` service (`ai-engine/app.py`).

The Python code is shallowly embedded: Python floats are modelled as exact
rationals (`ℚ`), Python ints as `ℤ`/`ℕ`, fallible operations (those that can
raise) return `Option`, and the HTTP handlers become pure functions from
their inputs to a response value.  Each definition below names the source
function it embeds.
-/

namespace Tracel

/-! ### Quantile (report_threat_intel._quantile, app.py lines 711-721)

The inner helper `_quantile(sorted_values, q)`:

    n = len(sorted_values)
    if n == 1: return sorted_values[0]
    pos = (n - 1) * q
    lo = floor(pos); hi = ceil(pos)
    if lo == hi: return sorted_values[lo]
    w = pos - lo
    return sorted_values[lo] * (1 - w) + sorted_values[hi] * w
-/
def quantile (sortedValues : List ℚ) (q : ℚ) : ℚ :=
  let n := sortedValues.length
  if n = 1 then sortedValues.getD 0 0
  else
    let pos : ℚ := ((n : ℚ) - 1) * q
    let lo : ℤ := ⌊pos⌋
    let hi : ℤ := ⌈pos⌉
    if lo = hi then sortedValues.getD lo.toNat 0
    else
      let w : ℚ := pos - (lo : ℚ)
      sortedValues.getD lo.toNat 0 * (1 - w) + sortedValues.getD hi.toNat 0 * w

/-- Modelled from the spec's words (§4.5 quantile algorithm): linear
interpolation at position `p = (n-1)·q`, `lo = floor p`, `hi = ceil p`,
result `scores[lo]` when `lo = hi`, else
`scores[lo]·(1-w) + scores[hi]·w` with `w = p - lo`.  Used to compare the
source's `_quantile` against the specified formula. -/
def quantileSpec (scores : List ℚ) (q : ℚ) : ℚ :=
  let n := scores.length
  let p : ℚ := ((n : ℚ) - 1) * q
  let lo : ℤ := ⌊p⌋
  let hi : ℤ := ⌈p⌉
  if lo = hi then scores.getD lo.toNat 0
  else
    let w : ℚ := p - (lo : ℚ)
    scores.getD lo.toNat 0 * (1 - w) + scores.getD hi.toNat 0 * w

lemma quantile_eq_quantileSpec (s : List ℚ) (q : ℚ) :
    quantile s q = quantileSpec s q := by
  unfold quantile quantileSpec
  by_cases h : s.length = 1
  · simp [h]
  · simp [h]

/-! ### Confidence buckets (report_threat_intel, app.py lines 702-742) -/

structure BucketResult where
  obvious : ℤ
  subtle : ℤ
  other : ℤ
  /-- `none` models the Python `{'obviousLe': None, 'subtleLe': None}` pair. -/
  thresholds : Option (ℚ × ℚ)
  deriving DecidableEq, Repr

/-- The `1e-9` collapse epsilon from line 709, as an exact rational. -/
def confEps : ℚ := 1 / 1000000000

/-- Embeds app.py lines 702-742: starting from
`obvious = 0; subtle = 0; other = total; thresholds = None/None`, when the
score list is non-empty it is sorted ascending; if `len >= 2` and
`max - min >= 1e-9` the value-based quantile split at `q = 0.20 / 0.60`
(inclusive `<=` boundaries, counted over the unsorted list) is used,
otherwise the rank-based fallback `ceil(n*0.2)` / `ceil(n*0.4)` with the
clamped boundary values.  `other` is always `total - obvious - subtle`. -/
def confidenceBuckets (total : ℤ) (scores : List ℚ) : BucketResult :=
  if scores.isEmpty then ⟨0, 0, total, none⟩
  else
    let ss := List.insertionSort (· ≤ ·) scores
    let n := ss.length
    if 2 ≤ n ∧ confEps ≤ ss.getD (n - 1) 0 - ss.getD 0 0 then
      let qObvious := quantile ss (2/10)
      let qSubtle := quantile ss (6/10)
      let obvious : ℤ := ((scores.filter fun s => decide (s ≤ qObvious)).length : ℤ)
      let subtle : ℤ :=
        ((scores.filter fun s => !decide (s ≤ qObvious) && decide (s ≤ qSubtle)).length : ℤ)
      ⟨obvious, subtle, total - obvious - subtle, some (qObvious, qSubtle)⟩
    else
      let nOb : ℤ := ⌈(n : ℚ) * (2/10)⌉
      let nSu : ℤ := ⌈(n : ℚ) * (4/10)⌉
      ⟨nOb, nSu, total - nOb - nSu,
        some (ss.getD (min (nOb - 1).toNat (n - 1)) 0,
              ss.getD (min (nOb + nSu - 1).toNat (n - 1)) 0)⟩

/-- Modelled from the claim's words: rank-based bucket sizes
`ceil(n·0.20)` into Obvious, `ceil(n·0.40)` into Subtle, remainder into
Other, thresholds the boundary score values of those rank buckets (the
score at the last in-range rank of each bucket). -/
def rankBucketsSpec (total : ℤ) (ss : List ℚ) : BucketResult :=
  let n := ss.length
  let nOb : ℤ := ⌈(n : ℚ) * (2/10)⌉
  let nSu : ℤ := ⌈(n : ℚ) * (4/10)⌉
  ⟨nOb, nSu, total - nOb - nSu,
    some (ss.getD (min (nOb - 1).toNat (n - 1)) 0,
          ss.getD (min (nOb + nSu - 1).toNat (n - 1)) 0)⟩

/-- Modelled from the claim's words: value-based quantile split at
`q = 0.20` and `q = 0.60` with inclusive boundaries (`score ≤ cutoff`),
using the specified quantile formula. -/
def valueBucketsSpec (total : ℤ) (scores ss : List ℚ) : BucketResult :=
  let qObvious := quantileSpec ss (2/10)
  let qSubtle := quantileSpec ss (6/10)
  let obvious : ℤ := ((scores.filter fun s => decide (s ≤ qObvious)).length : ℤ)
  let subtle : ℤ :=
    ((scores.filter fun s => !decide (s ≤ qObvious) && decide (s ≤ qSubtle)).length : ℤ)
  ⟨obvious, subtle, total - obvious - subtle, some (qObvious, qSubtle)⟩

lemma confidenceBuckets_sum (total : ℤ) (scores : List ℚ) :
    (confidenceBuckets total scores).obvious + (confidenceBuckets total scores).subtle
      + (confidenceBuckets total scores).other = total := by
  unfold confidenceBuckets
  split
  · simp
  · dsimp only
    split <;> simp

/-- A stored `anomaly_score` value as seen by the score-extraction loop in
app.py lines 690-700: `snull` is a missing/`None` value (skipped), `snum` a
finite numeric value (kept), `snonfinite` a non-finite float (skipped by the
`math.isfinite` check), `sbad` a value `float()` raises on (skipped by the
`except`). -/
inductive StoredScore where
  | snull
  | snum (q : ℚ)
  | snonfinite
  | sbad
  deriving DecidableEq, Repr

/-- The filter loop of app.py lines 690-700: keep exactly the finite numeric
scores, in order. -/
def extractScores (l : List StoredScore) : List ℚ :=
  l.filterMap fun v =>
    match v with
    | .snum q => some q
    | _ => none

/-- C1: the quantile function used for confidence buckets computes, for every
sorted ascending score list of length `n ≥ 1` and fraction `q ∈ [0,1]`,
linear interpolation at position `p = (n-1)·q` (with `lo = floor p`,
`hi = ceil p`, returning `scores[lo]` when `lo = hi` and
`scores[lo]·(1-w) + scores[hi]·w` with `w = p - lo` otherwise); in
particular for `[1,2,3,4,5]` the 0.20 quantile is 1.8 and the 0.60 quantile
is 3.4, and for a single-element list the quantile equals that single score
regardless of `q`. -/
theorem quantile_linear_interpolation :
    (∀ (s : List ℚ) (q : ℚ), List.Sorted (· ≤ ·) s → 1 ≤ s.length →
        0 ≤ q → q ≤ 1 → quantile s q = quantileSpec s q) ∧
    quantile [1, 2, 3, 4, 5] (2/10) = 18/10 ∧
    quantile [1, 2, 3, 4, 5] (6/10) = 34/10 ∧
    (∀ c q : ℚ, quantile [c] q = c) := by
  refine ⟨fun s q _ _ _ _ => quantile_eq_quantileSpec s q, ?_, ?_, fun _ _ => rfl⟩
  · have hf : (⌊(4/5 : ℚ)⌋ : ℤ) = 0 := Int.floor_eq_iff.mpr (by norm_num)
    have hc : (⌈(4/5 : ℚ)⌉ : ℤ) = 1 := Int.ceil_eq_iff.mpr (by norm_num)
    norm_num [quantile, hf, hc]
  · have hf : (⌊(12/5 : ℚ)⌋ : ℤ) = 2 := Int.floor_eq_iff.mpr (by norm_num)
    have hc : (⌈(12/5 : ℚ)⌉ : ℤ) = 3 := Int.ceil_eq_iff.mpr (by norm_num)
    norm_num [quantile, hf, hc]
    show (3:ℚ) * (3/5) + 4 * (2/5) = 17/5
    norm_num

/-- Witness for C1 at the concrete sorted list `[1,2]` and `q = 1/2`. -/
theorem quantile_linear_interpolation_witness :
    quantile [1, 2] (1/2) = quantileSpec [1, 2] (1/2) :=
  quantile_linear_interpolation.1 [1, 2] (1/2)
    (by norm_num [List.sorted_cons]) (by norm_num) (by norm_num) (by norm_num)

/-- C2: for every non-empty in-window score list, when the score range
collapses (`max - min` below the `1e-9` epsilon — which for a singleton list
is always the case) the confidence buckets are rank-based with sizes
`ceil(n·0.20)` and `ceil(n·0.40)` and boundary-value thresholds; otherwise
the value-based quantile split at `q = 0.20` and `q = 0.60` with inclusive
(`score ≤ cutoff`) boundaries is used. -/
theorem confidence_bucket_split (total : ℤ) (scores : List ℚ)
    (hne : scores ≠ []) :
    confidenceBuckets total scores =
      if (List.insertionSort (· ≤ ·) scores).getD
            ((List.insertionSort (· ≤ ·) scores).length - 1) 0
          - (List.insertionSort (· ≤ ·) scores).getD 0 0 < confEps
      then rankBucketsSpec total (List.insertionSort (· ≤ ·) scores)
      else valueBucketsSpec total scores (List.insertionSort (· ≤ ·) scores) := by
  have hlen : (List.insertionSort (· ≤ ·) scores).length = scores.length :=
    (List.perm_insertionSort _ _).length_eq
  have hpos : 1 ≤ scores.length := by
    cases scores with
    | nil => exact absurd rfl hne
    | cons a l => simp
  have hie : ¬ scores.isEmpty = true := by
    simpa [List.isEmpty_iff] using hne
  unfold confidenceBuckets rankBucketsSpec valueBucketsSpec
  rw [if_neg hie]
  dsimp only
  by_cases hc : 2 ≤ (List.insertionSort (· ≤ ·) scores).length ∧
      confEps ≤ (List.insertionSort (· ≤ ·) scores).getD
          ((List.insertionSort (· ≤ ·) scores).length - 1) 0
        - (List.insertionSort (· ≤ ·) scores).getD 0 0
  · rw [if_pos hc, if_neg (not_lt.mpr hc.2)]
    simp [quantile_eq_quantileSpec]
  · rw [if_neg hc]
    have hrange : (List.insertionSort (· ≤ ·) scores).getD
          ((List.insertionSort (· ≤ ·) scores).length - 1) 0
        - (List.insertionSort (· ≤ ·) scores).getD 0 0 < confEps := by
      rcases Nat.lt_or_ge (List.insertionSort (· ≤ ·) scores).length 2 with h2 | h2
      · have h1 : (List.insertionSort (· ≤ ·) scores).length = 1 := by omega
        rw [h1]
        norm_num [confEps]
      · exact not_le.mp fun hle => hc ⟨h2, hle⟩
    rw [if_pos hrange]

/-- Witness for C2 at the concrete singleton score list `[5]`. -/
theorem confidence_bucket_split_witness :
    confidenceBuckets 1 [(5:ℚ)] =
      if (List.insertionSort (· ≤ ·) [(5:ℚ)]).getD
            ((List.insertionSort (· ≤ ·) [(5:ℚ)]).length - 1) 0
          - (List.insertionSort (· ≤ ·) [(5:ℚ)]).getD 0 0 < confEps
      then rankBucketsSpec 1 (List.insertionSort (· ≤ ·) [(5:ℚ)])
      else valueBucketsSpec 1 [(5:ℚ)] (List.insertionSort (· ≤ ·) [(5:ℚ)]) :=
  confidence_bucket_split 1 [5] (by decide)

/-! ### Report response body (report_threat_intel, app.py lines 565-596 and 744-771)

The JSON keys carrying per-request data are modelled; the static
`window`, `aiConfidenceDefinition` and `generatedBy` strings are identical
in both branches and carry no claim content.  The `aiConfidenceThresholds`
key is special: the zero-total early return (lines 565-596) does not put
that key in its dict literal at all, while the main return (lines 744-771)
always does.  Key absence is modelled by the outer `Option` of
`aiConfidenceThresholdsField`; the inner `Option (ℚ × ℚ)` is the nullable
`{'obviousLe': ..., 'subtleLe': ...}` value. -/
structure ReportBody where
  ok : Bool
  totalThreats : ℤ
  topHostileIps : List (String × ℤ × Option String)
  attackVectorDistribution : List (String × ℤ)
  geoTopCountries : List (String × ℤ × ℤ)
  aiConfidenceThresholdsField : Option (Option (ℚ × ℚ))
  aiConfidenceDistribution : List (String × ℤ)

/-- The `total <= 0` early return, app.py lines 565-596. -/
def zeroReportBody : ReportBody where
  ok := true
  totalThreats := 0
  topHostileIps := []
  attackVectorDistribution := [("Volumetric", 0), ("Protocol", 0), ("Application", 0)]
  geoTopCountries := []
  aiConfidenceThresholdsField := none
  aiConfidenceDistribution := [("Obvious", 0), ("Subtle", 0), ("Other", 0)]

/-- The main return, app.py lines 744-771.  `vectorCounts` is the grouped
count per derived vector name (lines 636-652), `topHostile` and `geoTop`
the already-shaped top-5 lists, `scores` the extracted finite scores. -/
def fullReportBody (total : ℤ) (topHostile : List (String × ℤ × Option String))
    (vectorCounts : String → ℤ) (geoTop : List (String × ℤ × ℤ))
    (scores : List ℚ) : ReportBody :=
  let b := confidenceBuckets total scores
  { ok := true
    totalThreats := total
    topHostileIps := topHostile
    attackVectorDistribution :=
      [("Volumetric", vectorCounts "Volumetric"),
       ("Protocol", vectorCounts "Protocol"),
       ("Application", vectorCounts "Application")]
    geoTopCountries := geoTop
    aiConfidenceThresholdsField := some b.thresholds
    aiConfidenceDistribution :=
      [("Obvious", b.obvious), ("Subtle", b.subtle), ("Other", b.other)] }

/-- The successful-path body of `report_threat_intel`: the zero-total early
return (line 565, `total <= 0`) or the main return. -/
def reportBody (total : ℤ) (topHostile : List (String × ℤ × Option String))
    (vectorCounts : String → ℤ) (geoTop : List (String × ℤ × ℤ))
    (scores : List ℚ) : ReportBody :=
  if total ≤ 0 then zeroReportBody
  else fullReportBody total topHostile vectorCounts geoTop scores

/-- C3: for every window and every score distribution — the stored events
may have null, non-finite or unparseable `anomaly_score` values, which the
extraction loop drops while `totalThreats` still counts them — the three
reported bucket counts Obvious + Subtle + Other sum exactly to
`totalThreats`. -/
theorem bucket_counts_sum_to_total (events : List StoredScore)
    (topHostile : List (String × ℤ × Option String)) (vectorCounts : String → ℤ)
    (geoTop : List (String × ℤ × ℤ)) :
    ((reportBody (events.length : ℤ) topHostile vectorCounts geoTop
        (extractScores events)).aiConfidenceDistribution.map Prod.snd).sum
      = (events.length : ℤ) := by
  unfold reportBody
  by_cases h : (events.length : ℤ) ≤ 0
  · have h0 : (events.length : ℤ) = 0 := le_antisymm h (by positivity)
    rw [if_pos h]
    simp [zeroReportBody]
    omega
  · rw [if_neg h]
    have hs := confidenceBuckets_sum (events.length : ℤ) (extractScores events)
    simp [fullReportBody]
    linarith

/-- C8 counterexample: the zero-events report response is successful
(`ok = true`) yet carries no `aiConfidenceThresholds` key at all, so not
every successful response contains that field. -/
theorem zero_window_report_lacks_thresholds_key :
    (reportBody 0 [] (fun _ => 0) [] []).ok = true ∧
    (reportBody 0 [] (fun _ => 0) [] []).aiConfidenceThresholdsField = none :=
  ⟨rfl, rfl⟩

/-- C8 (amended): every successful report response contains the
always-3-entry `attackVectorDistribution` and the always-3-entry
`aiConfidenceDistribution`; the nullable
`aiConfidenceThresholds{obviousLe,subtleLe}` field is present whenever at
least one event is in the window (`totalThreats > 0`) but absent from the
zero-event response. -/
theorem report_shape (total : ℤ) (topHostile : List (String × ℤ × Option String))
    (vectorCounts : String → ℤ) (geoTop : List (String × ℤ × ℤ))
    (scores : List ℚ) :
    (reportBody total topHostile vectorCounts geoTop scores).attackVectorDistribution.length = 3 ∧
    (reportBody total topHostile vectorCounts geoTop scores).aiConfidenceDistribution.length = 3 ∧
    (0 < total →
      (reportBody total topHostile vectorCounts geoTop scores).aiConfidenceThresholdsField.isSome
        = true) ∧
    (total ≤ 0 →
      (reportBody total topHostile vectorCounts geoTop scores).aiConfidenceThresholdsField
        = none) := by
  unfold reportBody
  by_cases h : total ≤ 0
  · rw [if_pos h]
    exact ⟨rfl, rfl, fun hlt => absurd h (not_le.mpr hlt), fun _ => rfl⟩
  · rw [if_neg h]
    exact ⟨rfl, rfl, fun _ => rfl, fun hle => absurd hle h⟩

/-- Witness for C8 (amended) at a one-event window. -/
theorem report_shape_witness :
    (reportBody 1 [] (fun _ => 0) [] [(5:ℚ)]).aiConfidenceThresholdsField.isSome = true :=
  (report_shape 1 [] (fun _ => 0) [] [(5:ℚ)]).2.2.1 (by norm_num)

/-! ### String primitives

Character-level models of the Python string methods used by the service
(`.strip()`, `.upper()`, `.lower()`, `.split('.')`, regex `^...` match /
`$toUpper` / `$toLower` / `$trim` on the query side).  They are defined
over `List Char` so that they evaluate by kernel reduction; ASCII case
mapping and ASCII whitespace match the Python behaviour on the data this
service handles. -/

/-- Python `str.strip()` / Mongo `$trim`: drop leading and trailing
whitespace. -/
def pyStrip (s : String) : String :=
  ⟨((s.toList.dropWhile Char.isWhitespace).reverse.dropWhile Char.isWhitespace).reverse⟩

/-- Python `str.upper()` / Mongo `$toUpper` (ASCII). -/
def pyUpper (s : String) : String :=
  ⟨s.toList.map Char.toUpper⟩

/-- Python `str.lower()` / Mongo `$toLower` (ASCII). -/
def pyLower (s : String) : String :=
  ⟨s.toList.map Char.toLower⟩

/-- Anchored prefix match, as in the report query's `$regexMatch` with a
`^...` pattern. -/
def strStarts (s pre : String) : Bool :=
  pre.toList.isPrefixOf s.toList

/-- First segment of `s.split('.')` (Python) / `$arrayElemAt [$split .., 0]`
(query side): the characters before the first dot. -/
def firstDotSegment (s : String) : String :=
  ⟨s.toList.takeWhile (· ≠ '.')⟩

/-- Value of a non-empty all-digit character list, most significant first. -/
def decDigitsVal? (cs : List Char) : Option ℕ :=
  cs.foldl
    (fun acc c =>
      match acc with
      | none => none
      | some a => if c.isDigit then some (10 * a + (c.toNat - 48)) else none)
    (some 0)

/-- Decimal integer parse: optional leading `-`, then one or more ASCII
digits.  This is the shared core of Python's `int(str)` and the store's
string-to-int `$convert`; both reject anything else here (Python's extra
tolerance for surrounding whitespace is applied by `pyParseInt?`). -/
def parseDecInt? (s : String) : Option ℤ :=
  match s.toList with
  | [] => none
  | '-' :: rest =>
      if rest.isEmpty then none
      else (decDigitsVal? rest).map fun n => -(n : ℤ)
  | cs => (decDigitsVal? cs).map fun n => (n : ℤ)

/-- Python `int(str)`: tolerates surrounding whitespace. -/
def pyParseInt? (s : String) : Option ℤ :=
  parseDecInt? (pyStrip s)

/-- Query-side `$convert(..., 'int', onError ..)`: no whitespace tolerance;
the caller supplies the `onError`/`onNull` default. -/
def mongoParseInt? (s : String) : Option ℤ :=
  parseDecInt? s

/-! ### Classification policy: attack vector
(`_classify_attack_vector`, app.py lines 344-353, and the query-side
`vector_expr`, lines 486-550) -/

/-- `_classify_attack_vector(method, bytes_count)` (app.py lines 344-353):
`m = (method or '').strip().upper()`, `b = int(bytes_count or 0)`, then
`b >= 7000 -> Volumetric`, `m in {POST,PUT,PATCH,DELETE} -> Application`,
else `Protocol`.  A missing value is `none`. -/
def classifyAttackVector (method : Option String) (bytesCount : Option ℤ) : String :=
  let m := pyUpper (pyStrip (method.getD ""))
  let b := bytesCount.getD 0
  if 7000 ≤ b then "Volumetric"
  else if m ∈ (["POST", "PUT", "PATCH", "DELETE"] : List String) then "Application"
  else "Protocol"

/-- The query-side `vector_expr` (app.py lines 486-550): the explicit
`attack_vector` is null-coalesced, trimmed and lowercased; `$switch`
branches on the anchored regexes `^vol`, `^prot`, `^app`; the default
branch derives from `$toUpper(method)` (note: no `$trim`) and
`$convert(bytes, int, onError 0, onNull 0)` (an unconvertible or missing
`bytes` is `none`). -/
def vectorExpr (attackVector method : Option String) (bytes : Option ℤ) : String :=
  let explicit := pyLower (pyStrip (attackVector.getD ""))
  let m := pyUpper (method.getD "")
  let b := bytes.getD 0
  if strStarts explicit "vol" then "Volumetric"
  else if strStarts explicit "prot" then "Protocol"
  else if strStarts explicit "app" then "Application"
  else if 7000 ≤ b then "Volumetric"
  else if m ∈ (["POST", "PUT", "PATCH", "DELETE"] : List String) then "Application"
  else "Protocol"

/-- Modelled from the claim's words: derivation yields Volumetric when
`bytes ≥ 7000` (checked before the method rule), else Application when the
method is in {POST, PUT, PATCH, DELETE}, else Protocol. -/
def deriveVectorSpec (m : String) (b : ℤ) : String :=
  if 7000 ≤ b then "Volumetric"
  else if m ∈ (["POST", "PUT", "PATCH", "DELETE"] : List String) then "Application"
  else "Protocol"

/-- C4 counterexample: on the event `{method: " post ", bytes: 500}` with no
explicit vector, the application-code path strips the method and classifies
Application, while the query-side expression applies `$toUpper` without
`$trim` and classifies Protocol — the two paths are not identical. -/
theorem attack_vector_paths_differ :
    classifyAttackVector (some " post ") (some 500) = "Application" ∧
    vectorExpr none (some " post ") (some 500) = "Protocol" ∧
    classifyAttackVector (some " post ") (some 500)
      ≠ vectorExpr none (some " post ") (some 500) :=
  ⟨by decide, by decide, by decide⟩

/-- C4 (amended): the query-side expression follows the two-tier rule — a
trimmed, lowercased explicit `attack_vector` matching case-insensitively by
prefix (`vol*` → Volumetric, `prot*` → Protocol, `app*` → Application)
always wins and anything else falls through to the derivation
`bytes ≥ 7000 → Volumetric` (checked before the method rule), else
method ∈ {POST,PUT,PATCH,DELETE} → Application, else Protocol.  The
application-code function implements exactly that derivation tier, except
that it additionally strips the method; the two derivations coincide for
every method without surrounding whitespace. -/
theorem attack_vector_two_tier :
    (∀ (av m : Option String) (b : Option ℤ),
      strStarts (pyLower (pyStrip (av.getD ""))) "vol" = true →
        vectorExpr av m b = "Volumetric") ∧
    (∀ (av m : Option String) (b : Option ℤ),
      strStarts (pyLower (pyStrip (av.getD ""))) "vol" = false →
      strStarts (pyLower (pyStrip (av.getD ""))) "prot" = true →
        vectorExpr av m b = "Protocol") ∧
    (∀ (av m : Option String) (b : Option ℤ),
      strStarts (pyLower (pyStrip (av.getD ""))) "vol" = false →
      strStarts (pyLower (pyStrip (av.getD ""))) "prot" = false →
      strStarts (pyLower (pyStrip (av.getD ""))) "app" = true →
        vectorExpr av m b = "Application") ∧
    (∀ (av m : Option String) (b : Option ℤ),
      strStarts (pyLower (pyStrip (av.getD ""))) "vol" = false →
      strStarts (pyLower (pyStrip (av.getD ""))) "prot" = false →
      strStarts (pyLower (pyStrip (av.getD ""))) "app" = false →
        vectorExpr av m b = deriveVectorSpec (pyUpper (m.getD "")) (b.getD 0)) ∧
    (∀ (m : Option String) (b : Option ℤ),
      classifyAttackVector m b = deriveVectorSpec (pyUpper (pyStrip (m.getD ""))) (b.getD 0)) ∧
    (∀ (m : Option String) (b : Option ℤ), pyStrip (m.getD "") = m.getD "" →
      vectorExpr none m b = classifyAttackVector m b) := by
  have hders : ∀ (m : Option String) (b : Option ℤ),
      classifyAttackVector m b = deriveVectorSpec (pyUpper (pyStrip (m.getD ""))) (b.getD 0) := by
    intro m b
    simp only [classifyAttackVector, deriveVectorSpec]
  have hderq : ∀ (av m : Option String) (b : Option ℤ),
      strStarts (pyLower (pyStrip (av.getD ""))) "vol" = false →
      strStarts (pyLower (pyStrip (av.getD ""))) "prot" = false →
      strStarts (pyLower (pyStrip (av.getD ""))) "app" = false →
        vectorExpr av m b = deriveVectorSpec (pyUpper (m.getD "")) (b.getD 0) := by
    intro av m b h1 h2 h3
    simp only [vectorExpr, deriveVectorSpec, h1, h2, h3, if_false, Bool.false_eq_true]
  refine ⟨?_, ?_, ?_, hderq, hders, ?_⟩
  · intro av m b h1
    simp only [vectorExpr, h1, if_true]
  · intro av m b h1 h2
    simp only [vectorExpr, h1, h2, if_true, if_false, Bool.false_eq_true]
  · intro av m b h1 h2 h3
    simp only [vectorExpr, h1, h2, h3, if_true, if_false, Bool.false_eq_true]
  · intro m b h
    rw [hderq none m b (by decide) (by decide) (by decide), hders m b, h]

/-- Witness for C4 (amended), derivation agreement at `method = "GET"`,
`bytes = 500`. -/
theorem attack_vector_two_tier_witness :
    vectorExpr none (some "GET") (some 500) = classifyAttackVector (some "GET") (some 500) :=
  attack_vector_two_tier.2.2.2.2.2 (some "GET") (some 500) (by decide)

/-! ### Classification policy: geography
(`_ip_to_country_name`, app.py lines 319-341, and the query-side
`country_expr`, lines 425-483) -/

/-- The fixed, order-significant country list (app.py lines 321-332 and
412-423; both copies are identical in the source). -/
def countries : List String :=
  ["United States", "Canada", "Brazil", "United Kingdom", "Germany",
   "Russia", "China", "Japan", "Australia", "South Africa"]

/-- `_ip_to_country_name(ip)` (app.py lines 319-341):
`s = (ip or '').strip()`; `first = int(s.split('.')[0])` — a parse failure
is caught and yields `countries[0]`; an explicit `first < 0` check also
returns `countries[0]`; otherwise `countries[abs(first) % len(countries)]`. -/
def ipToCountryName (ip : Option String) : String :=
  let s := pyStrip (ip.getD "")
  match pyParseInt? (firstDotSegment s) with
  | none => countries.getD 0 ""
  | some first =>
      if first < 0 then countries.getD 0 ""
      else countries.getD (first.natAbs % countries.length) ""

/-- The query-side `country_expr` (app.py lines 425-483): a trimmed
non-empty explicit `source_country` is returned; otherwise the first
dot-segment of `source_ip` (no trim) is `$convert`ed to int
(`onError 0, onNull 0`) and the entry at `$abs(firstInt) $mod 10` is
selected. -/
def countryExpr (sourceCountry sourceIp : Option String) : String :=
  let explicit := pyStrip (sourceCountry.getD "")
  if 0 < explicit.length then explicit
  else
    let firstInt := (mongoParseInt? (firstDotSegment (sourceIp.getD ""))).getD 0
    countries.getD (firstInt.natAbs % countries.length) ""

/-- C5 counterexample: for the event with no explicit country and
`source_ip = "-3.7.0.1"` (first dot-segment parses to the negative integer
-3), the application-code function returns the index-0 country
"United States" while the query-side expression computes
`abs(-3) mod 10 = 3` and returns "United Kingdom" — the two paths are not
the same rule, and the application path does not use `abs(first) mod 10`
for negative segments. -/
theorem geo_paths_differ :
    ipToCountryName (some "-3.7.0.1") = "United States" ∧
    countryExpr none (some "-3.7.0.1") = "United Kingdom" ∧
    ipToCountryName (some "-3.7.0.1") ≠ countryExpr none (some "-3.7.0.1") :=
  ⟨by decide, by decide, by decide⟩

/-- C5 (amended): an explicit non-empty (trimmed) `source_country` is used
as-is on the query side; otherwise the first dot-delimited segment of
`source_ip` is parsed as an integer (failure → index 0).  The query-side
expression selects `countries[abs(first) mod 10]` for every parsed value,
negative ones included, while the application-code function returns
`countries[0]` for negative `first`; the two classifications agree whenever
their parses of the first segment agree and the parsed value is
non-negative (or parsing fails). -/
theorem geo_classification_rules :
    (∀ sc ip : Option String, 0 < (pyStrip (sc.getD "")).length →
      countryExpr sc ip = pyStrip (sc.getD "")) ∧
    (∀ ip : String,
      pyParseInt? (firstDotSegment (pyStrip ip)) = mongoParseInt? (firstDotSegment ip) →
      (∀ k : ℤ, mongoParseInt? (firstDotSegment ip) = some k → 0 ≤ k) →
      countryExpr none (some ip) = ipToCountryName (some ip)) := by
  constructor
  · intro sc ip h
    simp only [countryExpr, if_pos h]
  · intro ip hpar hpos
    simp only [countryExpr, ipToCountryName, Option.getD_some, Option.getD_none,
      show pyStrip "" = "" from rfl, show ("" : String).length = 0 from rfl,
      lt_self_iff_false, if_false]
    rw [hpar]
    cases hm : mongoParseInt? (firstDotSegment ip) with
    | none => simp
    | some k =>
        have hk : 0 ≤ k := hpos k hm
        simp only [Option.getD_some]
        rw [if_neg (not_lt.mpr hk)]

/-- Witness for C5 (amended): on `source_ip = "12.0.0.5"` both paths agree
(and an explicit country is returned verbatim). -/
theorem geo_classification_rules_witness :
    countryExpr none (some "12.0.0.5") = ipToCountryName (some "12.0.0.5") :=
  geo_classification_rules.2 "12.0.0.5" (by decide) (by decide)

/-! ### Scoring request payloads (`predict`, app.py lines 199-261) -/

/-- A JSON value arriving through `request.json`, restricted to the shapes
relevant to field coercion.  `pcoll` stands for any array/object value:
`int()`/`float()` raise on those, and their truthiness is whether they are
non-empty. -/
inductive PyVal where
  | pnone
  | pbool (b : Bool)
  | pint (n : ℤ)
  | pfloat (q : ℚ)
  | pstr (s : String)
  | pcoll (truthy : Bool)
  deriving DecidableEq, Repr

/-- Python truthiness, as used by `x or y` and `if x`. -/
def pyTruthy : PyVal → Bool
  | .pnone => false
  | .pbool b => b
  | .pint n => n != 0
  | .pfloat q => q != 0
  | .pstr s => s != ""
  | .pcoll t => t

/-- Truncation toward zero, the behaviour of Python `int(float)`.  The
negative operand is negated first so the result does not depend on the
rounding convention of integer division. -/
def ratTrunc (q : ℚ) : ℤ :=
  if 0 ≤ q then q.num / (q.den : ℤ) else -((-q).num / ((-q).den : ℤ))

/-- Python `float(str)`: optional sign, decimal digits with an optional
fractional part, surrounding whitespace tolerated.  (Exponent notation and
`inf`/`nan`, which Python also accepts, are not exercised by any claim and
parse to `none` here.) -/
def parseDecFloat? (s : String) : Option ℚ :=
  match (pyStrip s).toList with
  | [] => none
  | cs =>
      let sb : ℚ × List Char :=
        match cs with
        | '-' :: r => (-1, r)
        | '+' :: r => (1, r)
        | r => (1, r)
      if sb.2.isEmpty then none
      else
        let intPart := sb.2.takeWhile (· ≠ '.')
        let rest := sb.2.dropWhile (· ≠ '.')
        match rest with
        | [] => (decDigitsVal? intPart).map fun n => sb.1 * (n : ℚ)
        | _ :: frac =>
            if intPart.isEmpty ∧ frac.isEmpty then none
            else
              match (if intPart.isEmpty then some 0 else decDigitsVal? intPart),
                    (if frac.isEmpty then some 0 else decDigitsVal? frac) with
              | some ip, some fp =>
                  some (sb.1 * ((ip : ℚ) + (fp : ℚ) / ((10 : ℚ) ^ frac.length)))
              | _, _ => none

/-- Python `int(x)` on the payload value shapes: bools → 0/1, ints
unchanged, floats truncate toward zero, strings parse as whitespace-
tolerant decimal integers; `None` and collections raise (`none`). -/
def pyIntOf : PyVal → Option ℤ
  | .pbool b => some (if b then 1 else 0)
  | .pint n => some n
  | .pfloat q => some (ratTrunc q)
  | .pstr s => pyParseInt? s
  | _ => none

/-- Python `float(x)` on the payload value shapes. -/
def pyFloatOf : PyVal → Option ℚ
  | .pbool b => some (if b then 1 else 0)
  | .pint n => some (n : ℚ)
  | .pfloat q => some q
  | .pstr s => parseDecFloat? s
  | _ => none

/-- `_protocol_index(protocol)` (app.py lines 104-106) applied to the raw
JSON value `data.get('protocol')`: `(protocol or '')` replaces a falsy
value by `''`, so `None`/`''`/`0`/`False` fall through to the default TCP
index; a truthy string is stripped, uppercased and looked up in
`PROTOCOL_TO_INDEX` (unknown → 0); a truthy non-string raises
`AttributeError` on `.strip()` (`none`). -/
def protocolIndexOf (v : PyVal) : Option ℕ :=
  match (if pyTruthy v then v else .pstr "") with
  | .pstr s =>
      let p := pyUpper (pyStrip s)
      some (if p = "TCP" then 0 else if p = "UDP" then 1
            else if p = "ICMP" then 2 else if p = "HTTP" then 3 else 0)
  | _ => none

/-- The JSON body of a `/predict` request; `none` means the key is absent. -/
structure Payload where
  id : Option PyVal := none
  bytes : Option PyVal := none
  protocol : Option PyVal := none
  entropy : Option PyVal := none
  dst_port : Option PyVal := none
  port : Option PyVal := none
  deriving DecidableEq, Repr

/-- `int(data.get('bytes', 0) or 0)` (app.py line 214): an absent or falsy
`bytes` becomes 0; anything else goes through `int()`, which can raise
(`none`). -/
def coerceBytes (p : Payload) : Option ℤ :=
  let v0 := p.bytes.getD (.pint 0)
  pyIntOf (if pyTruthy v0 then v0 else .pint 0)

/-- app.py lines 219-224: `float(entropy_raw)` with `None` → 0.3 and any
exception → 0.3, then clamped into [0,1].  Total. -/
def coerceEntropy (p : Payload) : ℚ :=
  let raw := p.entropy.getD .pnone
  let e :=
    match raw with
    | .pnone => 3/10
    | v => (pyFloatOf v).getD (3/10)
  max 0 (min 1 e)

/-- app.py lines 227-233: `dst_port` falling back to `port`; `None` → 80,
any parse exception → 80.  Total. -/
def coercePort (p : Payload) : ℤ :=
  let raw :=
    match p.dst_port.getD .pnone with
    | .pnone => p.port.getD .pnone
    | v => v
  match raw with
  | .pnone => 80
  | v => (pyIntOf v).getD 80

/-! ### Feature transform (`_build_features`, app.py lines 109-137) -/

def COMMON_PORTS : List ℤ := [80, 443, 8080]

def ATTACK_PORTS : List ℤ := [23, 53, 123, 445, 3389, 1900, 4444]

/-- The feature column order produced by `_build_features`
(the `cols` list, app.py lines 125-137). -/
def featureCols : List String :=
  ["bytes_log", "entropy", "dst_port", "proto_tcp", "proto_udp",
   "proto_icmp", "proto_http", "port_is_common", "port_is_attack",
   "port_is_weird"]

/-- The single feature row `_build_features` computes for `/predict`
(app.py lines 109-137), as a by-name column lookup (modelling `X[c]`),
parameterised by `log1p` — the one transcendental (`math.log1p`) with no
exact rational counterpart; every theorem below holds for all `log1p`.
An unknown column name yields 0 (selecting an unknown column would raise
in pandas; no claim exercises that). -/
def buildFeatureRow (log1p : ℚ → ℚ) (bytes : ℤ) (protocolIndex : ℕ)
    (entropy : ℚ) (dstPort : ℤ) : String → ℚ := fun c =>
  if c = "bytes_log" then log1p (max 0 (bytes : ℚ))
  else if c = "entropy" then max 0 (min 1 entropy)
  else if c = "dst_port" then (dstPort : ℚ)
  else if c = "proto_tcp" then (if protocolIndex = 0 then 1 else 0)
  else if c = "proto_udp" then (if protocolIndex = 1 then 1 else 0)
  else if c = "proto_icmp" then (if protocolIndex = 2 then 1 else 0)
  else if c = "proto_http" then (if protocolIndex = 3 then 1 else 0)
  else if c = "port_is_common" then (if dstPort ∈ COMMON_PORTS then 1 else 0)
  else if c = "port_is_attack" then (if dstPort ∈ ATTACK_PORTS then 1 else 0)
  else if c = "port_is_weird" then (if dstPort ∈ COMMON_PORTS then 0 else 1)
  else 0

/-! ### Model artifact and scoring (app.py lines 79-90, 140-162, 199-261) -/

/-- The loaded model artifact: a bare scoring object, or a bundle dict with
`model`, optional `feature_columns` and optional `threshold`.  The opaque
`decision_function` applied to one ordered row is an arbitrary
`List ℚ → ℚ`. -/
inductive ModelObj where
  | bare (f : List ℚ → ℚ)
  | bundle (f : List ℚ → ℚ) (featureColumns : Option (List String)) (threshold : Option ℚ)

/-- `m.get('feature_columns') or list(X.columns)` (app.py line 250): a
missing (`None`) or empty — falsy — column list falls back to the
transform's natural column order. -/
def selectedCols : Option (List String) → List String
  | some (c :: cs) => c :: cs
  | _ => featureCols

/-- app.py lines 248-253: a bundle scores `X[cols]` through its pipeline,
a bare model scores `X` in the natural order. -/
def scoreWith (m : ModelObj) (row : String → ℚ) : ℚ :=
  match m with
  | .bare f => f (featureCols.map row)
  | .bundle f fc _ => f ((selectedCols fc).map row)

/-- Outcome of `/predict`: the success body `{score, id}`, the generic 500
error (the `except` at app.py line 260), or the 503 model-unavailable error
carrying the load-failure details. -/
inductive PredictResp where
  | ok (score : ℚ) (idEcho : PyVal)
  | err500
  | err503 (details : Option String)

/-- The body of `predict` once a model is available (app.py lines
206-258): coerce every field, build the feature row, score.  `int(bytes)`
(line 214) and `.strip()` on a truthy non-string `protocol` (line 105) are
the two places an exception escapes to the `except` at line 260. -/
def predictCore (m : ModelObj) (log1p : ℚ → ℚ) (p : Payload) : PredictResp :=
  match coerceBytes p, protocolIndexOf (p.protocol.getD .pnone) with
  | some b, some pidx =>
      .ok (scoreWith m (buildFeatureRow log1p b pidx (coerceEntropy p) (coercePort p)))
        (p.id.getD .pnone)
  | _, _ => .err500

/-! ### Lazy model loader (app.py lines 89-90, 140-162, 165-197) -/

/-- The process-global pair `model, model_error` (app.py lines 89-90). -/
structure LoaderGlobals where
  model : Option ModelObj
  modelError : Option String

/-- `ensure_model_loaded()` (app.py lines 140-162).  The outcome of
`load_model()` — determined by the filesystem, outside this embedding — is
passed in as `loadResult`; it is consulted only when neither a model nor an
error is cached.  Returns the updated globals and the `(model, error)` pair
the caller sees. -/
def ensureModelLoaded (loadResult : Option ModelObj × Option String)
    (g : LoaderGlobals) : LoaderGlobals × (Option ModelObj × Option String) :=
  match g.model with
  | some m => (g, (some m, none))
  | none =>
      match g.modelError with
      | some e => (g, (none, some e))
      | none => (⟨loadResult.1, loadResult.2⟩, loadResult)

/-- The `/predict` endpoint (app.py lines 199-261): ensure the model, 503
with the load-failure details when it is unavailable, else `predictCore`. -/
def predictEndpoint (loadResult : Option ModelObj × Option String)
    (g : LoaderGlobals) (log1p : ℚ → ℚ) (p : Payload) :
    LoaderGlobals × PredictResp :=
  let r := ensureModelLoaded loadResult g
  match r.2.1 with
  | none => (r.1, .err503 r.2.2)
  | some m => (r.1, predictCore m log1p p)

/-- The report of the forcing health variant `GET /health?load=1`
(app.py lines 170-197): `modelLoaded`, `modelError` and the HTTP status
(503 when the forced load leaves no model). -/
structure HealthReport where
  modelLoaded : Bool
  modelError : Option String
  status : ℕ
  deriving DecidableEq, Repr

/-- `GET /health?load=1` (app.py lines 170-197): call
`ensure_model_loaded` and report the outcome. -/
def healthForced (loadResult : Option ModelObj × Option String)
    (g : LoaderGlobals) : LoaderGlobals × HealthReport :=
  let r := ensureModelLoaded loadResult g
  (r.1, ⟨r.2.1.isSome, r.2.2, if r.2.1.isSome then 200 else 503⟩)

/-- C6 counterexample: against a loaded model, the payload
`{"bytes": "abc"}` makes `int(data.get('bytes', 0) or 0)` raise (the value
is truthy and not integer-convertible), and the payload `{"protocol": 7}`
makes `(protocol or '').strip()` raise `AttributeError`; both reach the
non-503 error branch (HTTP 500), so the transform is not total and that
branch is reachable. -/
theorem predict_error_branch_reachable :
    (predictEndpoint (none, none) ⟨some (.bare fun _ => 0), none⟩ id
        { bytes := some (.pstr "abc") }).2 = .err500 ∧
    (predictEndpoint (none, none) ⟨some (.bare fun _ => 0), none⟩ id
        { protocol := some (.pint 7) }).2 = .err500 :=
  ⟨rfl, rfl⟩

/-- C6 (amended): every field except `bytes` and `protocol` is totally
coerced — `entropy` parse failure → 0.3 then clamped to [0,1], `dst_port`/
`port` parse failure → 80, absent/falsy/unknown-string `protocol` → the
TCP index — and, against a loaded model, the non-503 error branch is
reached exactly when `int(bytes)` raises (a truthy non-integer-convertible
`bytes` value) or `.strip()` is invoked on a truthy non-string `protocol`
value. -/
theorem predict_coercion_totality :
    (∀ (m : ModelObj) (log1p : ℚ → ℚ) (p : Payload),
      predictCore m log1p p = .err500 ↔
        (coerceBytes p = none ∨ protocolIndexOf (p.protocol.getD .pnone) = none)) ∧
    (∀ p : Payload, 0 ≤ coerceEntropy p ∧ coerceEntropy p ≤ 1) ∧
    (∀ p : Payload, p.entropy = none → coerceEntropy p = 3/10) ∧
    (∀ p : Payload, p.dst_port = none → p.port = none → coercePort p = 80) ∧
    protocolIndexOf .pnone = some 0 ∧
    (∀ s : String,
      pyUpper (pyStrip s) ∉ (["TCP", "UDP", "ICMP", "HTTP"] : List String) →
        protocolIndexOf (.pstr s) = some 0) := by
  refine ⟨?_, ?_, ?_, ?_, rfl, ?_⟩
  · intro m log1p p
    unfold predictCore
    cases hb : coerceBytes p with
    | none => cases hp : protocolIndexOf (p.protocol.getD .pnone) <;> simp
    | some b =>
        cases hp : protocolIndexOf (p.protocol.getD .pnone) with
        | none => simp
        | some pidx => simp
  · intro p
    unfold coerceEntropy
    refine ⟨le_max_left 0 _, max_le (by norm_num) (min_le_left 1 _)⟩
  · intro p h
    simp only [coerceEntropy, h, Option.getD_none]
    norm_num
  · intro p hd hp
    simp only [coercePort, hd, hp, Option.getD_none]
  · intro s h
    have h1 : pyUpper (pyStrip s) ≠ "TCP" := fun hx => h (by simp [hx])
    have h2 : pyUpper (pyStrip s) ≠ "UDP" := fun hx => h (by simp [hx])
    have h3 : pyUpper (pyStrip s) ≠ "ICMP" := fun hx => h (by simp [hx])
    have h4 : pyUpper (pyStrip s) ≠ "HTTP" := fun hx => h (by simp [hx])
    by_cases hs : s = ""
    · subst hs
      rfl
    · have ht : pyTruthy (.pstr s) = true := by
        simp [pyTruthy, hs]
      simp only [protocolIndexOf, ht, if_true, h1, h2, h3, h4, if_false]

/-- Witness for C6 (amended): the empty payload scores with entropy 0.3,
port 80 and the TCP protocol index, and is not an error. -/
theorem predict_coercion_totality_witness :
    (0 ≤ coerceEntropy (⟨none, none, none, none, none, none⟩ : Payload) ∧
      coerceEntropy (⟨none, none, none, none, none, none⟩ : Payload) ≤ 1) ∧
    coerceEntropy (⟨none, none, none, none, none, none⟩ : Payload) = 3/10 ∧
    coercePort (⟨none, none, none, none, none, none⟩ : Payload) = 80 :=
  ⟨predict_coercion_totality.2.1 ⟨none, none, none, none, none, none⟩,
   predict_coercion_totality.2.2.1 ⟨none, none, none, none, none, none⟩ rfl,
   predict_coercion_totality.2.2.2.1 ⟨none, none, none, none, none, none⟩ rfl rfl⟩

/-- C7 counterexample: with a cached load failure and a `load_model`
outcome that would now succeed (a valid model file), the forcing health
variant returns the cached failure and leaves the globals unchanged — the
forced path does not re-run the load and does not leave the Failed state. -/
theorem forced_reload_does_not_overwrite_failure :
    (healthForced (some (.bare fun _ => 0), none)
        ⟨none, some "model file not found"⟩).1.model = none ∧
    (healthForced (some (.bare fun _ => 0), none)
        ⟨none, some "model file not found"⟩).1.modelError = some "model file not found" ∧
    (healthForced (some (.bare fun _ => 0), none)
        ⟨none, some "model file not found"⟩).2
      = ⟨false, some "model file not found", 503⟩ :=
  ⟨rfl, rfl, rfl⟩

/-- C7 (amended): once a load failure is cached, neither the forcing
health variant nor a scoring call re-runs the load — both return the
original failure reason and leave the state unchanged (scoring fails fast
with a 503 carrying the original details); the forcing variant triggers a
load attempt only from the initial Unloaded state. -/
theorem failed_load_is_sticky (loadResult : Option ModelObj × Option String)
    (g : LoaderGlobals) (e : String) (hm : g.model = none)
    (he : g.modelError = some e) :
    ensureModelLoaded loadResult g = (g, (none, some e)) ∧
    healthForced loadResult g = (g, ⟨false, some e, 503⟩) ∧
    (∀ (log1p : ℚ → ℚ) (p : Payload),
      predictEndpoint loadResult g log1p p = (g, .err503 (some e))) ∧
    (∀ g0 : LoaderGlobals, g0.model = none → g0.modelError = none →
      ensureModelLoaded loadResult g0 = (⟨loadResult.1, loadResult.2⟩, loadResult)) := by
  have h1 : ensureModelLoaded loadResult g = (g, (none, some e)) := by
    unfold ensureModelLoaded
    rw [hm, he]
  refine ⟨h1, ?_, ?_, ?_⟩
  · unfold healthForced
    rw [h1]
    rfl
  · intro log1p p
    unfold predictEndpoint
    rw [h1]
  · intro g0 h0m h0e
    unfold ensureModelLoaded
    rw [h0m, h0e]

/-- Witness for C7 (amended) at a concrete Failed state and a succeeding
load outcome. -/
theorem failed_load_is_sticky_witness :
    ensureModelLoaded (some (.bare fun _ => 0), none) ⟨none, some "boom"⟩
      = (⟨none, some "boom"⟩, (none, some "boom")) :=
  (failed_load_is_sticky (some (.bare fun _ => 0), none)
    ⟨none, some "boom"⟩ "boom" rfl rfl).1

/-- C10: a bundle whose `feature_columns` entry is absent (`None`) or the
empty list scores through the feature transform's natural column order —
exactly like a bare model wrapping the same pipeline — for every feature
row, and hence for every request payload. -/
theorem bundle_defaults_to_natural_columns (f : List ℚ → ℚ)
    (fc : Option (List String)) (th : Option ℚ)
    (h : fc = none ∨ fc = some []) :
    (∀ row : String → ℚ, scoreWith (.bundle f fc th) row = scoreWith (.bare f) row) ∧
    (∀ (log1p : ℚ → ℚ) (p : Payload),
      predictCore (.bundle f fc th) log1p p = predictCore (.bare f) log1p p) := by
  have hc : selectedCols fc = featureCols := by
    rcases h with h | h <;> subst h <;> rfl
  have hs : ∀ row : String → ℚ,
      scoreWith (.bundle f fc th) row = scoreWith (.bare f) row := by
    intro row
    simp [scoreWith, hc]
  refine ⟨hs, ?_⟩
  intro log1p p
  unfold predictCore
  cases hb : coerceBytes p with
  | none => rfl
  | some b =>
      cases hp : protocolIndexOf (p.protocol.getD .pnone) with
      | none => rfl
      | some pidx => simp [hs]

/-- Witness for C10 with a head-projection pipeline and a constant row. -/
theorem bundle_defaults_to_natural_columns_witness :
    scoreWith (.bundle (fun l => l.headI) none none) (fun _ => 2)
      = scoreWith (.bare fun l => l.headI) (fun _ => 2) :=
  (bundle_defaults_to_natural_columns (fun l => l.headI) none none (Or.inl rfl)).1
    (fun _ => 2)

/-! ### Concurrency of first callers (app.py lines 140-162 and 777-788)

`app.run(..., threaded=True)` (line 788) serves requests on multiple
threads, and `ensure_model_loaded` guards its load with plain global reads
and writes — there is no lock.  The function body is modelled as a
small-step program over the shared globals, one atomic step per global
access (CPython's interpreter lock makes each single access atomic, but
not their sequence):

  pc 0: read `model`;        non-None → return it (done, pc 5)
  pc 1: read `model_error`;  non-None → return it (done, pc 5)
  pc 2: run `load_model()`   (counted in `loads`)
  pc 3: write `model`
  pc 4: write `model_error`  (done, pc 5)

The loaded model's identity plays no role here, so it is `Unit`.  Two
racing first callers are threads 0 (`false`) and 1 (`true`); a schedule is
the list of thread ids handed the processor. -/

structure RaceThread where
  pc : ℕ
  res : Option Unit × Option String
  deriving DecidableEq, Repr

structure RaceState where
  model : Option Unit
  modelError : Option String
  loads : ℕ
  t0 : RaceThread
  t1 : RaceThread
  deriving DecidableEq, Repr

/-- One atomic step of `ensure_model_loaded` by one thread, over the shared
`(model, model_error, loads)` triple. -/
def raceThreadStep (loadResult : Option Unit × Option String)
    (shared : Option Unit × Option String × ℕ) (t : RaceThread) :
    (Option Unit × Option String × ℕ) × RaceThread :=
  match t.pc with
  | 0 =>
      match shared.1 with
      | some m => (shared, ⟨5, (some m, none)⟩)
      | none => (shared, ⟨1, t.res⟩)
  | 1 =>
      match shared.2.1 with
      | some e => (shared, ⟨5, (none, some e)⟩)
      | none => (shared, ⟨2, t.res⟩)
  | 2 => ((shared.1, shared.2.1, shared.2.2 + 1), ⟨3, loadResult⟩)
  | 3 => ((t.res.1, shared.2.1, shared.2.2), ⟨4, t.res⟩)
  | 4 => ((shared.1, t.res.2, shared.2.2), ⟨5, t.res⟩)
  | _ => (shared, t)

def raceStep (loadResult : Option Unit × Option String) (s : RaceState)
    (tid : Bool) : RaceState :=
  if tid then
    match raceThreadStep loadResult (s.model, s.modelError, s.loads) s.t1 with
    | ((m, e, l), t) => ⟨m, e, l, s.t0, t⟩
  else
    match raceThreadStep loadResult (s.model, s.modelError, s.loads) s.t0 with
    | ((m, e, l), t) => ⟨m, e, l, t, s.t1⟩

/-- Both globals start as `None` (app.py lines 89-90) and both threads at
the top of `ensure_model_loaded`. -/
def raceInit : RaceState :=
  ⟨none, none, 0, ⟨0, (none, none)⟩, ⟨0, (none, none)⟩⟩

def raceRun (loadResult : Option Unit × Option String) (sched : List Bool) :
    RaceState :=
  sched.foldl (raceStep loadResult) raceInit

/-- C9 counterexample: under the interleaving in which both racing first
callers pass the two cached-state checks before either runs the load
(thread 0 twice, thread 1 twice, then each runs to completion), both
callers run a full load attempt — `loads = 2` — so "at most one load
attempt across all racing callers" does not hold and the
check-then-load-then-publish sequence is not serialized. -/
theorem racing_first_callers_double_load :
    (raceRun (some (), none)
      [false, false, true, true, false, false, false, true, true, true]).loads = 2 :=
  rfl

/-- C9 (amended): `ensure_model_loaded` performs no synchronization, so
racing first callers can each run the full load attempt (the
counterexample interleaving); only when the first caller completes before
the second starts is exactly one load attempt performed, the second caller
then observing the published model or failure. -/
theorem serial_first_callers_single_load (loadResult : Option Unit × Option String)
    (h : loadResult.1.isSome = true ∨ loadResult.2.isSome = true) :
    (raceRun loadResult
      [false, false, false, false, false, true, true, true]).loads = 1 := by
  obtain ⟨m, e⟩ := loadResult
  rcases m with _ | m
  · rcases e with _ | e
    · simp at h
    · simp [raceRun, List.foldl, raceStep, raceThreadStep, raceInit]
  · simp [raceRun, List.foldl, raceStep, raceThreadStep, raceInit]

/-- Witness for C9 (amended): a successful load outcome, serial schedule. -/
theorem serial_first_callers_single_load_witness :
    (raceRun (some (), none)
      [false, false, false, false, false, true, true, true]).loads = 1 :=
  serial_first_callers_single_load (some (), none) (Or.inl rfl)

end Tracel
